import Mathlib

/-!
Shallow embedding of `src/server.py`: a small FastAPI backend that accepts
executive-consultation submissions, validates them with pydantic models,
stores them in a MongoDB collection, and exposes read endpoints.

Modelling conventions:
* timestamps (`datetime.utcnow()`) are `Nat`;
* the MongoDB collections are Lean lists (insertion order preserved);
* the nondeterministic outcome of each storage call (success, or a raised
  exception) is passed to the handler as an explicit `InsertOutcome` /
  `QueryOutcome` argument;
* each handler also returns the list of storage round trips (`DbOp`) it
  performed, in order;
* `uuid.uuid4()` and `datetime.utcnow()` are external entropy/clock sources,
  so generated ids and timestamps are explicit arguments of the handlers.
-/

/-- Embedding of the `InquiryType` enum (server.py lines 31-37). -/
inductive InquiryType where
  | advisory
  | interim
  | transformation
  | board
  | consulting
  | other
deriving DecidableEq, Repr

/-- String decoding of `InquiryType`, as pydantic performs on inbound JSON:
only the six enum values parse. -/
def InquiryType.ofString? (s : String) : Option InquiryType :=
  if s = "advisory" then some .advisory
  else if s = "interim" then some .interim
  else if s = "transformation" then some .transformation
  else if s = "board" then some .board
  else if s = "consulting" then some .consulting
  else if s = "other" then some .other
  else none

/-- Embedding of the `ConsultationStatus` enum (server.py lines 39-43). -/
inductive ConsultationStatus where
  | new
  | contacted
  | in_progress
  | closed
deriving DecidableEq, Repr

/-- Embedding of the `StatusCheck` pydantic model (server.py lines 46-49). -/
structure StatusCheck where
  id : String
  client_name : String
  timestamp : Nat
deriving DecidableEq, Repr

/-- Embedding of `StatusCheckCreate` (server.py lines 51-52). -/
structure StatusCheckCreate where
  client_name : String
deriving DecidableEq, Repr

/-- Embedding of the stored `ExecutiveConsultation` pydantic model
(server.py lines 54-66). -/
structure ExecutiveConsultation where
  id : String
  name : String
  email : String
  company : String
  title : String
  inquiry_type : InquiryType
  message : String
  status : ConsultationStatus
  submitted_at : Nat
  contacted_at : Option Nat
  notes : Option String
  priority : String
deriving DecidableEq, Repr

/-- Embedding of the create shape `ExecutiveConsultationCreate`
(server.py lines 68-74): client-supplied fields only, after successful
pydantic validation. -/
structure ExecutiveConsultationCreate where
  name : String
  email : String
  company : String
  title : String
  inquiry_type : InquiryType
  message : String
deriving DecidableEq, Repr

/-- Embedding of `ConsultationResponse` (server.py lines 76-80), with the
pydantic field defaults. -/
structure ConsultationResponse where
  success : Bool
  message : String
  consultation_id : Option String := none
  estimated_response_time : String := "24 hours"
deriving DecidableEq, Repr

/-- One pydantic validation error: the offending field and the constraint
message. -/
structure ValidationError where
  loc : String
  msg : String
deriving DecidableEq, Repr

/-- Raw inbound JSON body for `POST /api/consultation`, before validation. -/
structure ConsultationForm where
  name : String
  email : String
  company : String
  title : String
  inquiry_type : String
  message : String
deriving DecidableEq, Repr

/-- Pydantic `Field(min_length, max_length)` check for one string field,
returning the errors it contributes. -/
def lengthErrors (field : String) (minL maxL : Nat) (s : String) : List ValidationError :=
  if s.length < minL then
    [⟨field, "ensure this value has at least " ++ toString minL ++ " characters"⟩]
  else if maxL < s.length then
    [⟨field, "ensure this value has at most " ++ toString maxL ++ " characters"⟩]
  else []

/-- Split a character list at every occurrence of a separator. -/
def splitOnChar (sep : Char) : List Char → List (List Char)
  | [] => [[]]
  | c :: cs =>
    match splitOnChar sep cs, decide (c = sep) with
    | r, true => [] :: r
    | [], false => [[c]]
    | h :: t, false => (c :: h) :: t

/-- Modelled from the spec: pydantic's `EmailStr` delegates to the external
email-validator package, which is not part of this repository; per spec §3
("email must match standard address syntax") it is modelled as: one `@`
separating a nonempty local part from a domain that contains a dot and has
nonempty labels. -/
def emailValid (s : String) : Bool :=
  match splitOnChar '@' s.data with
  | [lp, dom] =>
      !lp.isEmpty
      && 2 ≤ (splitOnChar '.' dom).length
      && (splitOnChar '.' dom).all (fun l => !l.isEmpty)
  | _ => false

/-- All validation errors pydantic reports for an inbound consultation form,
in field-declaration order (server.py lines 68-74). -/
def consultationErrors (f : ConsultationForm) : List ValidationError :=
  lengthErrors "name" 2 100 f.name
  ++ (if emailValid f.email then [] else [⟨"email", "value is not a valid email address"⟩])
  ++ lengthErrors "company" 2 100 f.company
  ++ lengthErrors "title" 2 100 f.title
  ++ (match InquiryType.ofString? f.inquiry_type with
      | some _ => []
      | none => [⟨"inquiry_type", "value is not a valid enumeration member"⟩])
  ++ lengthErrors "message" 10 2000 f.message

/-- Pydantic validation of `ExecutiveConsultationCreate`: the typed payload
when every field check passes, otherwise the list of violations. -/
def validateConsultationCreate (f : ConsultationForm) :
    Except (List ValidationError) ExecutiveConsultationCreate :=
  match InquiryType.ofString? f.inquiry_type with
  | none => .error (consultationErrors f)
  | some it =>
      if consultationErrors f = [] then
        .ok ⟨f.name, f.email, f.company, f.title, it, f.message⟩
      else
        .error (consultationErrors f)

/-- One storage round trip against the document store. -/
inductive DbOp where
  | insertOne (collection : String)
  | find (collection : String)
  | findOne (collection : String)
deriving DecidableEq, Repr

/-- Outcome of an `insert_one` call: it succeeds and reports the inserted
id, succeeds but reports a falsy `inserted_id` (the branch server.py line
120 guards), or raises an exception. -/
inductive InsertOutcome where
  | ok
  | noInsertedId
  | raised
deriving DecidableEq, Repr

/-- Outcome of a `find` / `find_one` call: it returns, or raises. -/
inductive QueryOutcome where
  | ok
  | raised
deriving DecidableEq, Repr

/-- The two MongoDB collections the service touches (`db.executive_consultations`
and `db.status_checks`), as lists in insertion order. -/
structure Storage where
  executive_consultations : List ExecutiveConsultation := []
  status_checks : List StatusCheck := []
deriving DecidableEq, Repr

/-- Construction `ExecutiveConsultation(**consultation.dict())` (server.py
line 106): the client fields plus the model defaults — fresh `id`, `status`
`new`, creation timestamp, `contacted_at`/`notes` absent, `priority`
`"medium"`. -/
def mkConsultation (c : ExecutiveConsultationCreate) (genId : String) (now : Nat) :
    ExecutiveConsultation :=
  { id := genId
    name := c.name
    email := c.email
    company := c.company
    title := c.title
    inquiry_type := c.inquiry_type
    message := c.message
    status := .new
    submitted_at := now
    contacted_at := none
    notes := none
    priority := "medium" }

/-- Success message of the consultation handler (server.py line 116). -/
def consultationOkMessage : String :=
  "Executive consultation request received successfully. Thank you for your interest in strategic collaboration."

/-- Failure message of the consultation handler (server.py line 127). -/
def consultationFailMessage : String :=
  "Unable to process your request at this time. Please try again or contact directly via email."

/-- Handler `submit_executive_consultation` (server.py lines 99-129): builds
the stored object, performs one `insert_one`, and returns a
`ConsultationResponse`; the surrounding `try`/`except Exception` turns every
raised error into the success=false response, so the handler never raises. -/
def submit_executive_consultation (c : ExecutiveConsultationCreate) (genId : String)
    (now : Nat) (outcome : InsertOutcome) (st : Storage) :
    ConsultationResponse × Storage × List DbOp :=
  let obj := mkConsultation c genId now
  match outcome with
  | .raised =>
      ({ success := false, message := consultationFailMessage, consultation_id := none },
       st, [.insertOne "executive_consultations"])
  | .noInsertedId =>
      ({ success := false, message := consultationFailMessage, consultation_id := none },
       { st with executive_consultations := st.executive_consultations ++ [obj] },
       [.insertOne "executive_consultations"])
  | .ok =>
      ({ success := true, message := consultationOkMessage,
         consultation_id := some obj.id, estimated_response_time := "24 hours" },
       { st with executive_consultations := st.executive_consultations ++ [obj] },
       [.insertOne "executive_consultations"])

/-- Result returned to the client by `POST /api/consultation`: either the
handler's response, or the framework's 422 when pydantic validation of the
body fails before the handler runs. -/
inductive SubmitResult where
  | response (r : ConsultationResponse)
  | validationFailure (errs : List ValidationError)
deriving DecidableEq, Repr

/-- Full `POST /api/consultation` pipeline: pydantic validates the raw body
(rejecting with 422 and touching no storage), then the handler runs. -/
def consultationEndpoint (f : ConsultationForm) (genId : String) (now : Nat)
    (outcome : InsertOutcome) (st : Storage) : SubmitResult × Storage × List DbOp :=
  match validateConsultationCreate f with
  | .error errs => (.validationFailure errs, st, [])
  | .ok c =>
      let r := submit_executive_consultation c genId now outcome st
      (.response r.1, r.2.1, r.2.2)

/-- Handler `get_executive_consultations` (server.py lines 131-145): one
`find` with an optional exact-status filter, sorted by `submitted_at`
descending, truncated to 100; any raised error is caught and becomes `[]`. -/
def get_executive_consultations (statusFilter : Option ConsultationStatus)
    (outcome : QueryOutcome) (st : Storage) :
    List ExecutiveConsultation × Storage × List DbOp :=
  match outcome with
  | .raised => ([], st, [.find "executive_consultations"])
  | .ok =>
      let base := match statusFilter with
        | none => st.executive_consultations
        | some s => st.executive_consultations.filter (fun c => c.status = s)
      ((base.mergeSort (fun a b => Nat.ble b.submitted_at a.submitted_at)).take 100,
       st, [.find "executive_consultations"])

/-- A raised Python exception, as the handler bodies see it. -/
inductive PyExn where
  | httpException (status : Nat) (detail : String)
  | storageError (msg : String)
deriving DecidableEq, Repr

/-- An HTTP-level result: a payload, or an error status with detail. -/
inductive HttpResult (α : Type) where
  | ok (a : α)
  | httpError (status : Nat) (detail : String)
deriving DecidableEq, Repr

/-- The `try` block of `get_consultation_by_id` (server.py lines 152-157):
`find_one({"id": consultation_id})`, return the match if any, otherwise
raise `HTTPException(404, "Consultation not found")`. -/
def getConsultationTryBlock (consultation_id : String) (outcome : QueryOutcome)
    (st : Storage) : Except PyExn ExecutiveConsultation :=
  match outcome with
  | .raised => .error (.storageError "storage failure")
  | .ok =>
      match st.executive_consultations.find? (fun c => c.id = consultation_id) with
      | some c => .ok c
      | none => .error (.httpException 404 "Consultation not found")

/-- Handler `get_consultation_by_id` (server.py lines 147-160). The
`except Exception` clause (line 158) catches every exception raised in the
`try` block — including the `HTTPException(404)` raised on a missing record,
since `HTTPException` subclasses `Exception` — and re-raises
`HTTPException(500, "Internal server error")`. -/
def get_consultation_by_id (consultation_id : String) (outcome : QueryOutcome)
    (st : Storage) : HttpResult ExecutiveConsultation × Storage × List DbOp :=
  match getConsultationTryBlock consultation_id outcome st with
  | .ok c => (.ok c, st, [.findOne "executive_consultations"])
  | .error _ =>
      (.httpError 500 "Internal server error", st, [.findOne "executive_consultations"])

/-- Handler `create_status_check` (server.py lines 87-92): builds the
`StatusCheck` and performs one `insert_one`. There is no `try`/`except`
here: a raised storage error propagates past the handler. -/
def create_status_check (input : StatusCheckCreate) (genId : String) (now : Nat)
    (outcome : InsertOutcome) (st : Storage) :
    Except PyExn StatusCheck × Storage × List DbOp :=
  let obj : StatusCheck := { id := genId, client_name := input.client_name, timestamp := now }
  match outcome with
  | .raised => (.error (.storageError "storage failure"), st, [.insertOne "status_checks"])
  | _ =>
      (.ok obj, { st with status_checks := st.status_checks ++ [obj] },
       [.insertOne "status_checks"])

/-- Handler `get_status_checks` (server.py lines 94-97): one unfiltered,
unsorted `find` truncated to 1000; no `try`/`except`, so a raised error
propagates. -/
def get_status_checks (outcome : QueryOutcome) (st : Storage) :
    Except PyExn (List StatusCheck) × Storage × List DbOp :=
  match outcome with
  | .raised => (.error (.storageError "storage failure"), st, [.find "status_checks"])
  | .ok => (.ok (st.status_checks.take 1000), st, [.find "status_checks"])

/-- Handler `root` (server.py lines 83-85): static liveness message, no
storage access. -/
def rootHandler : String × List DbOp :=
  ("Executive Portfolio API - Strategic Leadership Services", [])

/-- A sequence of consultation submissions: each element is the validated
payload together with the id drawn from `uuid4` and the `utcnow` timestamp
at that submission, applied in order with every insert succeeding. -/
def createAll : List (ExecutiveConsultationCreate × String × Nat) → Storage → Storage
  | [], st => st
  | (c, i, t) :: rest, st =>
      createAll rest (submit_executive_consultation c i t .ok st).2.1

/-- The create payload of the spec §8 worked example, as raw JSON body. -/
def janeForm : ConsultationForm :=
  { name := "Jane Doe"
    email := "jane@ex.com"
    company := "Acme"
    title := "CEO"
    inquiry_type := "advisory"
    message := "Need strategic advisory support for Q3 planning" }

/-- The spec §8 worked example after validation. -/
def janeCreate : ExecutiveConsultationCreate :=
  { name := "Jane Doe"
    email := "jane@ex.com"
    company := "Acme"
    title := "CEO"
    inquiry_type := .advisory
    message := "Need strategic advisory support for Q3 planning" }

example : validateConsultationCreate janeForm = .ok janeCreate := rfl

/-- When some field check fails, pydantic rejects the body before the
handler runs: the endpoint returns the 422 with the collected errors, the
storage is untouched and no storage round trip happens. -/
theorem consultationEndpoint_of_errors (f : ConsultationForm) (genId : String)
    (now : Nat) (outcome : InsertOutcome) (st : Storage)
    (h : consultationErrors f ≠ []) :
    consultationEndpoint f genId now outcome st
      = (.validationFailure (consultationErrors f), st, []) := by
  unfold consultationEndpoint validateConsultationCreate
  cases hit : InquiryType.ofString? f.inquiry_type <;> simp [h]

/-- A violated length bound contributes an error naming its field. -/
theorem lengthErrors_loc (field : String) (minL maxL : Nat) (s : String)
    (hm : minL ≤ maxL) (h : s.length < minL ∨ maxL < s.length) :
    ∃ e ∈ lengthErrors field minL maxL s, e.loc = field := by
  unfold lengthErrors
  rcases h with h | h
  · refine ⟨⟨field, "ensure this value has at least " ++ toString minL ++ " characters"⟩, ?_, rfl⟩
    simp [h]
  · have h1 : ¬ s.length < minL := by omega
    refine ⟨⟨field, "ensure this value has at most " ++ toString maxL ++ " characters"⟩, ?_, rfl⟩
    simp [h1, h]

/-- C1: is false of the code, though the code itself shows the intended
behavior. The `try` block of `get_consultation_by_id` raises
`HTTPException(404, "Consultation not found")` when no stored record has the
requested id, but the handler's blanket `except Exception` clause catches
that very exception and replaces it with `HTTPException(500, "Internal
server error")`; so a lookup of an id that was never created answers 500,
not 404. Evaluated here at the failing input: id `"missing-id"` against an
empty collection. -/
theorem C1_missing_id_yields_500 :
    getConsultationTryBlock "missing-id" .ok ⟨[], []⟩
        = .error (.httpException 404 "Consultation not found")
    ∧ (get_consultation_by_id "missing-id" .ok ⟨[], []⟩).1
        = .httpError 500 "Internal server error" :=
  ⟨rfl, rfl⟩

/-- C2 counterexample: a storage error raised while creating a status check
propagates past the handler instead of becoming a structured success=false
response — `create_status_check` has no `try`/`except` around its
`insert_one`. -/
theorem C2_status_check_error_propagates :
    (create_status_check ⟨"client-a"⟩ "id-1" 0 .raised ⟨[], []⟩).1
      = .error (.storageError "storage failure") :=
  rfl

/-- C2 (amended): errors during a consultation submission are absorbed at
the handler boundary into a structured success=false response — the handler
always returns a `ConsultationResponse` and never raises — while a storage
error during status-check creation propagates past that handler
uncaughtidly. -/
theorem C2_consultation_absorbed (c : ExecutiveConsultationCreate) (genId : String)
    (now : Nat) (outcome : InsertOutcome) (st : Storage)
    (input : StatusCheckCreate) :
    (outcome ≠ .ok →
      (submit_executive_consultation c genId now outcome st).1
        = { success := false, message := consultationFailMessage,
            consultation_id := none, estimated_response_time := "24 hours" })
    ∧ (outcome = .ok →
      (submit_executive_consultation c genId now outcome st).1.success = true)
    ∧ (create_status_check input genId now .raised st).1
        = .error (.storageError "storage failure") := by
  refine ⟨?_, ?_, rfl⟩ <;> cases outcome <;> intro h <;>
    first | rfl | exact absurd rfl h | cases h

/-- C2 witness at a concrete failing insert. -/
theorem C2_consultation_absorbed_witness :
    (InsertOutcome.raised ≠ .ok →
      (submit_executive_consultation janeCreate "id-1" 0 .raised ⟨[], []⟩).1
        = { success := false, message := consultationFailMessage,
            consultation_id := none, estimated_response_time := "24 hours" })
    ∧ (InsertOutcome.raised = .ok →
      (submit_executive_consultation janeCreate "id-1" 0 .raised ⟨[], []⟩).1.success = true)
    ∧ (create_status_check ⟨"client-b"⟩ "id-1" 0 .raised ⟨[], []⟩).1
        = .error (.storageError "storage failure") :=
  C2_consultation_absorbed janeCreate "id-1" 0 .raised ⟨[], []⟩ ⟨"client-b"⟩

/-- C9: every record the consultation create operation adds to the
collection has `priority = "medium"`: the create shape carries no
`priority` field and the stored model fills it with its default, a plain
(non-optional) string. -/
theorem C9_created_priority_is_medium (c : ExecutiveConsultationCreate)
    (genId : String) (now : Nat) (outcome : InsertOutcome) (st : Storage)
    (r : ExecutiveConsultation)
    (hr : r ∈ (submit_executive_consultation c genId now outcome st).2.1.executive_consultations) :
    r ∈ st.executive_consultations ∨ r.priority = "medium" := by
  cases outcome <;>
    simp only [submit_executive_consultation, List.mem_append, List.mem_singleton] at hr
  · rcases hr with hr | hr
    · exact .inl hr
    · exact .inr (by rw [hr]; rfl)
  · rcases hr with hr | hr
    · exact .inl hr
    · exact .inr (by rw [hr]; rfl)
  · exact .inl hr

/-- C9 witness: the single record created from the worked example. -/
theorem C9_created_priority_is_medium_witness :
    mkConsultation janeCreate "id-9" 7 ∈ (⟨[], []⟩ : Storage).executive_consultations
    ∨ (mkConsultation janeCreate "id-9" 7).priority = "medium" :=
  C9_created_priority_is_medium janeCreate "id-9" 7 .ok ⟨[], []⟩
    (mkConsultation janeCreate "id-9" 7) (by simp [submit_executive_consultation])

/-- C10: the consultation handler's response carries
`estimated_response_time = "24 hours"` in success and failure alike, and
every failure that reaches the handler answers success=false with
`consultation_id = none`. -/
theorem C10_failure_response_shape (c : ExecutiveConsultationCreate)
    (genId : String) (now : Nat) (outcome : InsertOutcome) (st : Storage) :
    (submit_executive_consultation c genId now outcome st).1.estimated_response_time
        = "24 hours"
    ∧ (outcome ≠ .ok →
        (submit_executive_consultation c genId now outcome st).1.success = false
        ∧ (submit_executive_consultation c genId now outcome st).1.consultation_id = none) := by
  cases outcome <;> exact ⟨rfl, fun h => by first | exact ⟨rfl, rfl⟩ | exact absurd rfl h⟩

/-- C10 witness at a concrete raising insert. -/
theorem C10_failure_response_shape_witness :
    (submit_executive_consultation janeCreate "id-2" 3 .raised ⟨[], []⟩).1.estimated_response_time
        = "24 hours"
    ∧ (InsertOutcome.raised ≠ .ok →
        (submit_executive_consultation janeCreate "id-2" 3 .raised ⟨[], []⟩).1.success = false
        ∧ (submit_executive_consultation janeCreate "id-2" 3 .raised ⟨[], []⟩).1.consultation_id = none) :=
  C10_failure_response_shape janeCreate "id-2" 3 .raised ⟨[], []⟩

/-- A form with at least one validation error is rejected before the
handler: the endpoint answers 422 with errors containing the given one,
stores nothing and performs no storage round trip. -/
theorem consultationReject_of_mem (f : ConsultationForm) (genId : String)
    (now : Nat) (outcome : InsertOutcome) (st : Storage) (e : ValidationError)
    (he : e ∈ consultationErrors f) :
    ∃ errs, (consultationEndpoint f genId now outcome st).1 = .validationFailure errs
      ∧ e ∈ errs
      ∧ (consultationEndpoint f genId now outcome st).2.1 = st
      ∧ (consultationEndpoint f genId now outcome st).2.2 = [] := by
  have hne : consultationErrors f ≠ [] := List.ne_nil_of_mem he
  rw [consultationEndpoint_of_errors f genId now outcome st hne]
  exact ⟨consultationErrors f, rfl, he, rfl, rfl⟩

/-- A violated length bound on `name` surfaces in the collected errors. -/
theorem mem_consultationErrors_name (f : ConsultationForm)
    (h : f.name.length < 2 ∨ 100 < f.name.length) :
    ∃ e ∈ consultationErrors f, e.loc = "name" := by
  obtain ⟨e, he, hloc⟩ := lengthErrors_loc "name" 2 100 f.name (by omega) h
  refine ⟨e, ?_, hloc⟩
  simp only [consultationErrors, List.mem_append]
  tauto

/-- A violated length bound on `company` surfaces in the collected errors. -/
theorem mem_consultationErrors_company (f : ConsultationForm)
    (h : f.company.length < 2 ∨ 100 < f.company.length) :
    ∃ e ∈ consultationErrors f, e.loc = "company" := by
  obtain ⟨e, he, hloc⟩ := lengthErrors_loc "company" 2 100 f.company (by omega) h
  refine ⟨e, ?_, hloc⟩
  simp only [consultationErrors, List.mem_append]
  tauto

/-- A violated length bound on `title` surfaces in the collected errors. -/
theorem mem_consultationErrors_title (f : ConsultationForm)
    (h : f.title.length < 2 ∨ 100 < f.title.length) :
    ∃ e ∈ consultationErrors f, e.loc = "title" := by
  obtain ⟨e, he, hloc⟩ := lengthErrors_loc "title" 2 100 f.title (by omega) h
  refine ⟨e, ?_, hloc⟩
  simp only [consultationErrors, List.mem_append]
  tauto

/-- A violated length bound on `message` surfaces in the collected errors. -/
theorem mem_consultationErrors_message (f : ConsultationForm)
    (h : f.message.length < 10 ∨ 2000 < f.message.length) :
    ∃ e ∈ consultationErrors f, e.loc = "message" := by
  obtain ⟨e, he, hloc⟩ := lengthErrors_loc "message" 10 2000 f.message (by omega) h
  refine ⟨e, ?_, hloc⟩
  simp only [consultationErrors, List.mem_append]
  tauto

/-- C5: a create payload whose `name`, `company` or `title` falls outside
2-100 characters, or whose `message` falls outside 10-2000 characters, is
rejected with a validation failure naming the violating field, no record is
stored and no storage round trip happens. -/
theorem C5_length_bounds_reject (f : ConsultationForm) (genId : String)
    (now : Nat) (outcome : InsertOutcome) (st : Storage) :
    ((f.name.length < 2 ∨ 100 < f.name.length) →
      ∃ errs, (consultationEndpoint f genId now outcome st).1 = .validationFailure errs
        ∧ (∃ e ∈ errs, e.loc = "name")
        ∧ (consultationEndpoint f genId now outcome st).2.1 = st)
    ∧ ((f.company.length < 2 ∨ 100 < f.company.length) →
      ∃ errs, (consultationEndpoint f genId now outcome st).1 = .validationFailure errs
        ∧ (∃ e ∈ errs, e.loc = "company")
        ∧ (consultationEndpoint f genId now outcome st).2.1 = st)
    ∧ ((f.title.length < 2 ∨ 100 < f.title.length) →
      ∃ errs, (consultationEndpoint f genId now outcome st).1 = .validationFailure errs
        ∧ (∃ e ∈ errs, e.loc = "title")
        ∧ (consultationEndpoint f genId now outcome st).2.1 = st)
    ∧ ((f.message.length < 10 ∨ 2000 < f.message.length) →
      ∃ errs, (consultationEndpoint f genId now outcome st).1 = .validationFailure errs
        ∧ (∃ e ∈ errs, e.loc = "message")
        ∧ (consultationEndpoint f genId now outcome st).2.1 = st) := by
  refine ⟨?_, ?_, ?_, ?_⟩ <;> intro h
  · obtain ⟨e, he, hloc⟩ := mem_consultationErrors_name f h
    obtain ⟨errs, h1, h2, h3, _⟩ := consultationReject_of_mem f genId now outcome st e he
    exact ⟨errs, h1, ⟨e, h2, hloc⟩, h3⟩
  · obtain ⟨e, he, hloc⟩ := mem_consultationErrors_company f h
    obtain ⟨errs, h1, h2, h3, _⟩ := consultationReject_of_mem f genId now outcome st e he
    exact ⟨errs, h1, ⟨e, h2, hloc⟩, h3⟩
  · obtain ⟨e, he, hloc⟩ := mem_consultationErrors_title f h
    obtain ⟨errs, h1, h2, h3, _⟩ := consultationReject_of_mem f genId now outcome st e he
    exact ⟨errs, h1, ⟨e, h2, hloc⟩, h3⟩
  · obtain ⟨e, he, hloc⟩ := mem_consultationErrors_message f h
    obtain ⟨errs, h1, h2, h3, _⟩ := consultationReject_of_mem f genId now outcome st e he
    exact ⟨errs, h1, ⟨e, h2, hloc⟩, h3⟩

/-- The worked example with its message shortened below 10 characters. -/
def shortMessageForm : ConsultationForm :=
  { janeForm with message := "Too short" }

/-- C5 witness: the nine-character message is rejected, the error names the
`message` field, and the empty collection stays empty. -/
theorem C5_length_bounds_reject_witness :
    (shortMessageForm.message.length < 10 ∨ 2000 < shortMessageForm.message.length)
    ∧ (∃ errs,
        (consultationEndpoint shortMessageForm "id-5" 0 .ok ⟨[], []⟩).1
          = .validationFailure errs
        ∧ (∃ e ∈ errs, e.loc = "message")
        ∧ (consultationEndpoint shortMessageForm "id-5" 0 .ok ⟨[], []⟩).2.1 = ⟨[], []⟩) :=
  ⟨by decide,
   (C5_length_bounds_reject shortMessageForm "id-5" 0 .ok ⟨[], []⟩).2.2.2 (by decide)⟩

/-- A string outside the six enum values fails to decode. -/
theorem ofStringEqNone (s : String)
    (h : s ∉ (["advisory", "interim", "transformation", "board",
               "consulting", "other"] : List String)) :
    InquiryType.ofString? s = none := by
  simp only [List.mem_cons, List.not_mem_nil, or_false, not_or] at h
  obtain ⟨h1, h2, h3, h4, h5, h6⟩ := h
  simp [InquiryType.ofString?, h1, h2, h3, h4, h5, h6]

/-- C6: a create payload whose `inquiry_type` is outside the fixed
enumeration is rejected with a validation failure naming the field, no
record is stored and no storage round trip happens. -/
theorem C6_inquiry_type_reject (f : ConsultationForm) (genId : String)
    (now : Nat) (outcome : InsertOutcome) (st : Storage)
    (h : f.inquiry_type ∉ (["advisory", "interim", "transformation", "board",
                            "consulting", "other"] : List String)) :
    ∃ errs, (consultationEndpoint f genId now outcome st).1 = .validationFailure errs
      ∧ (∃ e ∈ errs, e.loc = "inquiry_type")
      ∧ (consultationEndpoint f genId now outcome st).2.1 = st
      ∧ (consultationEndpoint f genId now outcome st).2.2 = [] := by
  have hn : InquiryType.ofString? f.inquiry_type = none := ofStringEqNone _ h
  have he : (⟨"inquiry_type", "value is not a valid enumeration member"⟩ : ValidationError)
      ∈ consultationErrors f := by
    simp only [consultationErrors, hn, List.mem_append]
    exact Or.inl (Or.inr (List.mem_singleton_self _))
  obtain ⟨errs, h1, h2, h3, h4⟩ :=
    consultationReject_of_mem f genId now outcome st _ he
  exact ⟨errs, h1, ⟨_, h2, rfl⟩, h3, h4⟩

/-- The worked example with an inquiry type outside the enumeration. -/
def badInquiryForm : ConsultationForm :=
  { janeForm with inquiry_type := "coaching" }

/-- C6 witness: `inquiry_type = "coaching"` is rejected, the error names the
field, and the empty collection stays empty. -/
theorem C6_inquiry_type_reject_witness :
    ∃ errs, (consultationEndpoint badInquiryForm "id-6" 0 .ok ⟨[], []⟩).1
        = .validationFailure errs
      ∧ (∃ e ∈ errs, e.loc = "inquiry_type")
      ∧ (consultationEndpoint badInquiryForm "id-6" 0 .ok ⟨[], []⟩).2.1 = ⟨[], []⟩
      ∧ (consultationEndpoint badInquiryForm "id-6" 0 .ok ⟨[], []⟩).2.2 = [] :=
  C6_inquiry_type_reject badInquiryForm "id-6" 0 .ok ⟨[], []⟩ (by decide)

/-- A payload that validates carries exactly the form's field values. -/
theorem validate_ok_fields (f : ConsultationForm) (c : ExecutiveConsultationCreate)
    (h : validateConsultationCreate f = .ok c) :
    c.name = f.name ∧ c.email = f.email ∧ c.company = f.company
    ∧ c.title = f.title ∧ c.message = f.message := by
  unfold validateConsultationCreate at h
  cases hit : InquiryType.ofString? f.inquiry_type <;> rw [hit] at h <;>
    dsimp only at h
  · cases h
  · by_cases he : consultationErrors f = []
    · rw [if_pos he] at h
      injection h with h
      subst h
      exact ⟨rfl, rfl, rfl, rfl, rfl⟩
    · rw [if_neg he] at h
      cases h

/-- C4: a valid create payload is stored as one appended record carrying
the payload's fields plus the generated id, the creation timestamp and
status `new`; the response is success=true with the generated id and
`estimated_response_time` "24 hours"; and a subsequent get by that id
returns that record. -/
theorem C4_create_then_get (f : ConsultationForm) (c : ExecutiveConsultationCreate)
    (genId : String) (now : Nat) (st : Storage)
    (hval : validateConsultationCreate f = .ok c)
    (hfresh : ∀ r ∈ st.executive_consultations, r.id ≠ genId) :
    (consultationEndpoint f genId now .ok st).1
        = .response { success := true, message := consultationOkMessage,
                      consultation_id := some genId,
                      estimated_response_time := "24 hours" }
    ∧ (consultationEndpoint f genId now .ok st).2.1.executive_consultations
        = st.executive_consultations ++ [mkConsultation c genId now]
    ∧ ∃ rec, (get_consultation_by_id genId .ok
            (consultationEndpoint f genId now .ok st).2.1).1 = .ok rec
        ∧ rec.id = genId ∧ rec.name = f.name ∧ rec.email = f.email
        ∧ rec.company = f.company ∧ rec.title = f.title
        ∧ rec.inquiry_type = c.inquiry_type ∧ rec.message = f.message
        ∧ rec.status = .new ∧ rec.submitted_at = now ∧ rec.priority = "medium" := by
  obtain ⟨hn, he, hc, ht, hm⟩ := validate_ok_fields f c hval
  have hend : consultationEndpoint f genId now .ok st
      = (.response { success := true, message := consultationOkMessage,
                     consultation_id := some genId,
                     estimated_response_time := "24 hours" },
         { st with executive_consultations :=
                     st.executive_consultations ++ [mkConsultation c genId now] },
         [.insertOne "executive_consultations"]) := by
    unfold consultationEndpoint
    rw [hval]
    rfl
  rw [hend]
  refine ⟨rfl, rfl, mkConsultation c genId now, ?_, rfl, ?_, ?_, ?_, ?_, rfl, ?_, rfl, rfl, rfl⟩
  · have hnone : (st.executive_consultations).find?
        (fun r => r.id = genId) = none := by
      rw [List.find?_eq_none]
      intro x hx
      simpa using hfresh x hx
    have hfind : (st.executive_consultations ++ [mkConsultation c genId now]).find?
        (fun r => r.id = genId)
        = some (mkConsultation c genId now) := by
      rw [List.find?_append, hnone, Option.none_or]
      exact List.find?_cons_of_pos _ (by simp [mkConsultation])
    unfold get_consultation_by_id getConsultationTryBlock
    rw [hfind]
  · exact hn.symm ▸ rfl
  · exact he.symm ▸ rfl
  · exact hc.symm ▸ rfl
  · exact ht.symm ▸ rfl
  · exact hm.symm ▸ rfl

/-- C4 witness: the spec §8 worked example against an empty collection. -/
theorem C4_create_then_get_witness :
    (consultationEndpoint janeForm "uuid-4" 11 .ok ⟨[], []⟩).1
        = .response { success := true, message := consultationOkMessage,
                      consultation_id := some "uuid-4",
                      estimated_response_time := "24 hours" }
    ∧ (consultationEndpoint janeForm "uuid-4" 11 .ok ⟨[], []⟩).2.1.executive_consultations
        = ([] : List ExecutiveConsultation) ++ [mkConsultation janeCreate "uuid-4" 11]
    ∧ ∃ rec, (get_consultation_by_id "uuid-4" .ok
            (consultationEndpoint janeForm "uuid-4" 11 .ok ⟨[], []⟩).2.1).1 = .ok rec
        ∧ rec.id = "uuid-4" ∧ rec.name = janeForm.name ∧ rec.email = janeForm.email
        ∧ rec.company = janeForm.company ∧ rec.title = janeForm.title
        ∧ rec.inquiry_type = janeCreate.inquiry_type ∧ rec.message = janeForm.message
        ∧ rec.status = .new ∧ rec.submitted_at = 11 ∧ rec.priority = "medium" :=
  C4_create_then_get janeForm janeCreate "uuid-4" 11 ⟨[], []⟩ rfl (by simp)

/-- The sorted-descending prefix returned by the list endpoint is pairwise
ordered by `submitted_at` descending. -/
theorem sortedTake_pairwise (l : List ExecutiveConsultation) :
    List.Pairwise (fun a b => b.submitted_at ≤ a.submitted_at)
      ((l.mergeSort (fun a b => Nat.ble b.submitted_at a.submitted_at)).take 100) := by
  have htrans : ∀ a b c : ExecutiveConsultation,
      Nat.ble b.submitted_at a.submitted_at = true →
      Nat.ble c.submitted_at b.submitted_at = true →
      Nat.ble c.submitted_at a.submitted_at = true := by
    intro a b c h1 h2
    simp only [Nat.ble_eq] at h1 h2 ⊢
    omega
  have htotal : ∀ a b : ExecutiveConsultation,
      (Nat.ble b.submitted_at a.submitted_at
        || Nat.ble a.submitted_at b.submitted_at) = true := by
    intro a b
    simp only [Bool.or_eq_true, Nat.ble_eq]
    omega
  have hs := List.sorted_mergeSort htrans htotal l
  have hs' : List.Pairwise (fun a b : ExecutiveConsultation =>
      b.submitted_at ≤ a.submitted_at)
      (l.mergeSort (fun a b => Nat.ble b.submitted_at a.submitted_at)) :=
    hs.imp (fun h => by simpa [Nat.ble_eq] using h)
  exact List.Pairwise.sublist (List.take_sublist 100 _) hs'

/-- A record surviving the filter, sort and truncation of the list endpoint
has the filtered status. -/
theorem memTake_status (s : ConsultationStatus) (l : List ExecutiveConsultation)
    (c : ExecutiveConsultation)
    (hc : c ∈ ((l.filter (fun r => r.status = s)).mergeSort
        (fun a b => Nat.ble b.submitted_at a.submitted_at)).take 100) :
    c.status = s := by
  have h1 : c ∈ (l.filter (fun r => r.status = s)).mergeSort
      (fun a b => Nat.ble b.submitted_at a.submitted_at) :=
    (List.take_sublist 100 _).subset hc
  have h2 : c ∈ l.filter (fun r => r.status = s) :=
    (List.mergeSort_perm _ _).mem_iff.1 h1
  exact of_decide_eq_true (List.mem_filter.1 h2).2

/-- C3: the list operation returns at most 100 records, sorted by
`submitted_at` descending; with a status filter every returned record has
that status; and a raised storage error yields the empty list. -/
theorem C3_list_contract (statusFilter : Option ConsultationStatus)
    (outcome : QueryOutcome) (st : Storage) :
    (get_executive_consultations statusFilter outcome st).1.length ≤ 100
    ∧ List.Pairwise (fun a b => b.submitted_at ≤ a.submitted_at)
        (get_executive_consultations statusFilter outcome st).1
    ∧ (∀ s, statusFilter = some s →
        ∀ c ∈ (get_executive_consultations statusFilter outcome st).1, c.status = s)
    ∧ (outcome = .raised → (get_executive_consultations statusFilter outcome st).1 = []) := by
  cases outcome with
  | raised =>
      refine ⟨by simp [get_executive_consultations], ?_, ?_, fun _ => rfl⟩
      · simp [get_executive_consultations]
      · intro s hs c hc
        simp [get_executive_consultations] at hc
  | ok =>
      refine ⟨?_, ?_, ?_, fun h => by cases h⟩
      · cases statusFilter <;> exact List.length_take_le _ _
      · cases statusFilter <;> exact sortedTake_pairwise _
      · intro s hs c hc
        cases statusFilter with
        | none => cases hs
        | some s' =>
            injection hs with hs
            subst hs
            exact memTake_status s' _ c hc

/-- C3 witness: the contract instantiated at a concrete filter, a concrete
storage and both query outcomes, with the inner hypotheses discharged. -/
theorem C3_list_contract_witness :
    (get_executive_consultations (some .new) .ok ⟨[], []⟩).1.length ≤ 100
    ∧ (∀ c ∈ (get_executive_consultations (some .new) .ok ⟨[], []⟩).1,
        c.status = .new)
    ∧ (get_executive_consultations (some .new) .raised ⟨[], []⟩).1 = [] :=
  ⟨(C3_list_contract (some .new) .ok ⟨[], []⟩).1,
   fun c hc => (C3_list_contract (some .new) .ok ⟨[], []⟩).2.2.1 .new rfl c hc,
   (C3_list_contract (some .new) .raised ⟨[], []⟩).2.2.2 rfl⟩

/-- Running a sequence of successful submissions appends exactly the
constructed records, in submission order. -/
theorem createAll_executive_consultations
    (ts : List (ExecutiveConsultationCreate × String × Nat)) (st : Storage) :
    (createAll ts st).executive_consultations
      = st.executive_consultations
        ++ ts.map (fun x => mkConsultation x.1 x.2.1 x.2.2) := by
  induction ts generalizing st with
  | nil => simp [createAll]
  | cons hd tl ih =>
      obtain ⟨c, i, t⟩ := hd
      rw [createAll, ih]
      simp [submit_executive_consultation]

/-- C7: over any run of successful submissions starting from an empty
collection, if the drawn uuid4 ids are pairwise distinct and the utcnow
clock readings are nondecreasing, then the stored records' ids are pairwise
distinct and their `submitted_at` timestamps are nondecreasing in insertion
order; each id is assigned exactly once, at creation. -/
theorem C7_ids_unique_times_monotone
    (ts : List (ExecutiveConsultationCreate × String × Nat))
    (hids : (ts.map fun x => x.2.1).Pairwise (· ≠ ·))
    (htimes : (ts.map fun x => x.2.2).Chain' (· ≤ ·)) :
    ((createAll ts ⟨[], []⟩).executive_consultations.map
        ExecutiveConsultation.id).Pairwise (· ≠ ·)
    ∧ ((createAll ts ⟨[], []⟩).executive_consultations.map
        ExecutiveConsultation.submitted_at).Chain' (· ≤ ·) := by
  rw [createAll_executive_consultations]
  simp only [List.nil_append, List.map_map]
  constructor
  · exact List.pairwise_map.2 (List.pairwise_map.1 hids)
  · exact (List.chain'_map _).2 ((List.chain'_map _).1 htimes)

/-- C7 witness: two submissions with distinct ids and nondecreasing clock. -/
theorem C7_ids_unique_times_monotone_witness :
    ((createAll [(janeCreate, "uuid-a", 1), (janeCreate, "uuid-b", 2)]
        ⟨[], []⟩).executive_consultations.map
        ExecutiveConsultation.id).Pairwise (· ≠ ·)
    ∧ ((createAll [(janeCreate, "uuid-a", 1), (janeCreate, "uuid-b", 2)]
        ⟨[], []⟩).executive_consultations.map
        ExecutiveConsultation.submitted_at).Chain' (· ≤ ·) :=
  C7_ids_unique_times_monotone
    [(janeCreate, "uuid-a", 1), (janeCreate, "uuid-b", 2)]
    (by decide) (by simp [List.chain'_cons])

/-- C8 counterexample: the health-root endpoint (server.py lines 83-85) is
an exposed operation and performs zero storage round trips, not one. -/
theorem C8_root_zero_round_trips : rootHandler.2 = [] := rfl

/-- The get-by-id handler leaves storage unchanged and performs exactly the
one `find_one`, whatever the lookup outcome. -/
theorem get_by_id_frame (cid : String) (qo : QueryOutcome) (st : Storage) :
    (get_consultation_by_id cid qo st).2.1 = st
    ∧ (get_consultation_by_id cid qo st).2.2 = [.findOne "executive_consultations"] := by
  unfold get_consultation_by_id
  cases getConsultationTryBlock cid qo st <;> exact ⟨rfl, rfl⟩

/-- The consultation insert only ever appends to its collection. -/
theorem submit_appends (c : ExecutiveConsultationCreate) (genId : String)
    (now : Nat) (io : InsertOutcome) (st : Storage) :
    ∃ tail, (submit_executive_consultation c genId now io st).2.1.executive_consultations
      = st.executive_consultations ++ tail := by
  cases io
  · exact ⟨[mkConsultation c genId now], rfl⟩
  · exact ⟨[mkConsultation c genId now], rfl⟩
  · exact ⟨[], (List.append_nil _).symm⟩

/-- The status-check insert only ever appends to its collection. -/
theorem status_check_appends (input : StatusCheckCreate) (genId : String)
    (now : Nat) (io : InsertOutcome) (st : Storage) :
    ∃ tail, (create_status_check input genId now io st).2.1.status_checks
      = st.status_checks ++ tail := by
  cases io
  · exact ⟨[⟨genId, input.client_name, now⟩], rfl⟩
  · exact ⟨[⟨genId, input.client_name, now⟩], rfl⟩
  · exact ⟨[], (List.append_nil _).symm⟩

/-- C8 (amended): each create/list/get operation performs exactly one
storage round trip while the health root performs none; list and get leave
both collections unchanged; and no operation deletes or mutates an existing
record — creates only append, reads do not write. -/
theorem C8_frame_contract (c : ExecutiveConsultationCreate) (genId : String)
    (now : Nat) (io : InsertOutcome) (qo : QueryOutcome) (st : Storage)
    (input : StatusCheckCreate) (statusFilter : Option ConsultationStatus)
    (cid : String) :
    (submit_executive_consultation c genId now io st).2.2.length = 1
    ∧ (create_status_check input genId now io st).2.2.length = 1
    ∧ (get_executive_consultations statusFilter qo st).2.2.length = 1
    ∧ (get_consultation_by_id cid qo st).2.2.length = 1
    ∧ (get_status_checks qo st).2.2.length = 1
    ∧ rootHandler.2.length = 0
    ∧ (get_executive_consultations statusFilter qo st).2.1 = st
    ∧ (get_consultation_by_id cid qo st).2.1 = st
    ∧ (get_status_checks qo st).2.1 = st
    ∧ (∃ tail, (submit_executive_consultation c genId now io st).2.1.executive_consultations
        = st.executive_consultations ++ tail)
    ∧ (submit_executive_consultation c genId now io st).2.1.status_checks
        = st.status_checks
    ∧ (∃ tail, (create_status_check input genId now io st).2.1.status_checks
        = st.status_checks ++ tail)
    ∧ (create_status_check input genId now io st).2.1.executive_consultations
        = st.executive_consultations := by
  obtain ⟨hg1, hg2⟩ := get_by_id_frame cid qo st
  refine ⟨?_, ?_, ?_, by rw [hg2]; rfl, ?_, rfl, ?_, hg1, ?_,
          submit_appends c genId now io st, ?_,
          status_check_appends input genId now io st, ?_⟩
  · cases io <;> rfl
  · cases io <;> rfl
  · cases qo <;> rfl
  · cases qo <;> rfl
  · cases qo <;> rfl
  · cases qo <;> rfl
  · cases io <;> rfl
  · cases io <;> rfl
